import Mathlib

/-!
Verification of the suspendable keyed promise-cache / suspension / recovery
subsystem that recurs across this repository's code samples:

* `getCachedPromise` / module-level `cache : Map<string, Promise>` from
  `ebook/code-samples/advanced/15-suspense-demo/src/App.tsx`;
* `cachedFetch` / `invalidateCache` / `clearCache` from the
  `src/utils/promiseCache.ts` sample;
* `wrapPromise` / `SuspenseCache` / `invalidateCache` from the
  `src/lib/suspense.ts` sample;
* the `ErrorBoundary` class component and the section-reset handlers of the
  dashboard `App`.

JavaScript `Map` objects are embedded as association lists, promises and
mutable resource objects as identifiers into explicit state records, and
settlement callbacks as explicit state-transition functions carrying exactly
the data the corresponding closures capture.
-/

namespace SuspenseVerif

/-! ### JS `Map` primitives (`has`/`get`/`set`/`delete`) as association lists -/

def mapLookup {α β : Type} [DecidableEq α] (k : α) : List (α × β) → Option β
  | [] => none
  | (k', v) :: t => if k = k' then some v else mapLookup k t

def mapSet {α β : Type} [DecidableEq α] (k : α) (v : β) : List (α × β) → List (α × β)
  | [] => [(k, v)]
  | (k', v') :: t => if k = k' then (k, v) :: t else (k', v') :: mapSet k v t

def mapDelete {α β : Type} [DecidableEq α] (k : α) : List (α × β) → List (α × β)
  | [] => []
  | (k', v') :: t => if k = k' then mapDelete k t else (k', v') :: mapDelete k t

theorem mapLookup_set_self {α β : Type} [DecidableEq α] (k : α) (v : β)
    (l : List (α × β)) : mapLookup k (mapSet k v l) = some v := by
  induction l with
  | nil => simp [mapLookup, mapSet]
  | cons hd t ih =>
    obtain ⟨k', v'⟩ := hd
    by_cases h : k = k' <;> simp [mapLookup, mapSet, h, ih]

theorem mapLookup_set_ne {α β : Type} [DecidableEq α] {k k' : α} (hne : k ≠ k')
    (v : β) (l : List (α × β)) : mapLookup k (mapSet k' v l) = mapLookup k l := by
  induction l with
  | nil => simp [mapLookup, mapSet, hne]
  | cons hd t ih =>
    obtain ⟨k'', v''⟩ := hd
    by_cases h : k' = k'' <;> by_cases h2 : k = k'' <;>
      simp_all [mapLookup, mapSet]

theorem mapLookup_delete_self {α β : Type} [DecidableEq α] (k : α)
    (l : List (α × β)) : mapLookup k (mapDelete k l) = none := by
  induction l with
  | nil => simp [mapLookup, mapDelete]
  | cons hd t ih =>
    obtain ⟨k', v'⟩ := hd
    by_cases h : k = k'
    · subst h; simp [mapDelete, ih]
    · simp [mapLookup, mapDelete, h, ih]

theorem mapLookup_delete_ne {α β : Type} [DecidableEq α] {k k' : α} (hne : k ≠ k')
    (l : List (α × β)) : mapLookup k (mapDelete k' l) = mapLookup k l := by
  induction l with
  | nil => simp [mapLookup, mapDelete]
  | cons hd t ih =>
    obtain ⟨k'', v''⟩ := hd
    by_cases h : k' = k'' <;> by_cases h2 : k = k'' <;>
      simp_all [mapLookup, mapDelete]

/-! ### Concrete value and error types

Resolved payloads are concretized to naturals and thrown JS error values to
their message strings, which is all the cached-control-flow logic inspects. -/

abbrev Val := Nat

abbrev Err := String

/-! ### The `suspense.ts` cache: `SuspenseCache`, `wrapPromise`, `invalidateCache`

`wrapPromise(promise, cacheKey?)` receives an already-started promise,
allocates a mutable `SuspenseCache` record (`resource`), attaches a
settlement continuation that mutates the record and — only then — stores it
in the module-level `cache` map, and returns a closure `() => T` that reads
the record at force time.  Resource objects are mutable and aliased (by the
returned closure, by the continuation, and by the cache), so they are
embedded as identifiers (`rid`) into an explicit heap; promises likewise
appear as identifiers (`pid`). -/

inductive Status where
  | pending
  | fulfilled
  | rejected
deriving DecidableEq

/-- The `SuspenseCache<T>` record of `src/lib/suspense.ts`: `status`,
optional `value`, optional `error`, and the backing `promise`. -/
structure SCResource where
  status : Status
  value : Option Val
  error : Option Err
  promiseId : Nat
deriving DecidableEq

/-- World state for the `suspense.ts` module: the module-level
`cache : Map<string, SuspenseCache>` (holding resource identifiers), the
heap of allocated resource records, and a fresh-identifier counter. -/
structure SWorld where
  cache : List (String × Nat)
  heap : List (Nat × SCResource)
  nextRid : Nat
deriving DecidableEq

def emptySWorld : SWorld := ⟨[], [], 0⟩

/-- Dereference a resource identifier; the default mirrors the non-null
assertion `cache.get(cacheKey)!` and is never reached from worlds built by
the operations below. -/
def heapGet (rid : Nat) (w : SWorld) : SCResource :=
  (mapLookup rid w.heap).getD ⟨.pending, none, none, 0⟩

/-- Outcome of forcing the closure `() => T` returned by `wrapPromise`
(lines 3791-3800 of the source): a synchronous return, a thrown error, or a
thrown promise (suspension). -/
inductive ReadOutcome where
  | returns (v : Option Val)
  | throwsErr (e : Option Err)
  | throwsPromise (pid : Nat)
deriving DecidableEq

/-- The body of the closure returned by `wrapPromise`, applied to the current
state of the captured resource record:

    if (resource.status === 'fulfilled') return resource.value!;
    if (resource.status === 'rejected') throw resource.error;
    throw resource.promise; // Suspend!
-/
def readResource (r : SCResource) : ReadOutcome :=
  if r.status = .fulfilled then .returns r.value
  else if r.status = .rejected then .throwsErr r.error
  else .throwsPromise r.promiseId

/-- What a call to `wrapPromise` itself produces: either the reader closure
over some resource record, or a synchronous throw out of the cache-hit
branch (a cached error, or a cached still-pending promise). -/
inductive WrapResult where
  | reader (rid : Nat)
  | thrownErr (e : Option Err)
  | thrownPromise (pid : Nat)
deriving DecidableEq

/-- `wrapPromise(promise, cacheKey?)`.  On a cache hit it dispatches on the
cached record's status (fulfilled: return a closure over the cached record;
rejected: `throw cached.error`; otherwise `throw cached.promise`).  On a
miss (or without a key) it allocates a fresh `pending` resource holding the
promise and returns the reader closure over it.  Note that the miss branch
does not insert anything into the cache: the only `cache.set` in the source
sits inside the settlement continuation (`settleFulfilled`/`settleRejected`
below). -/
def wrapPromise (pid : Nat) (cacheKey : Option String) (w : SWorld) :
    WrapResult × SWorld :=
  match cacheKey with
  | some k =>
    match mapLookup k w.cache with
    | some rid =>
      let cached := heapGet rid w
      if cached.status = .fulfilled then (.reader rid, w)
      else if cached.status = .rejected then (.thrownErr cached.error, w)
      else (.thrownPromise cached.promiseId, w)
    | none =>
      (.reader w.nextRid,
       { w with
           heap := mapSet w.nextRid ⟨.pending, none, none, pid⟩ w.heap,
           nextRid := w.nextRid + 1 })
  | none =>
    (.reader w.nextRid,
     { w with
         heap := mapSet w.nextRid ⟨.pending, none, none, pid⟩ w.heap,
         nextRid := w.nextRid + 1 })

/-- The fulfillment continuation attached by `wrapPromise` at creation time.
It captures the resource record (`rid`) and the `cacheKey` of the creating
call, mutates the record to `fulfilled`, and then — unconditionally —
executes `if (cacheKey) cache.set(cacheKey, resource)`. -/
def settleFulfilled (rid : Nat) (cacheKey : Option String) (v : Val)
    (w : SWorld) : SWorld :=
  let r := heapGet rid w
  { w with
      heap := mapSet rid { r with status := .fulfilled, value := some v } w.heap,
      cache :=
        match cacheKey with
        | some k => mapSet k rid w.cache
        | none => w.cache }

/-- The rejection continuation attached by `wrapPromise` at creation time;
symmetric to `settleFulfilled`. -/
def settleRejected (rid : Nat) (cacheKey : Option String) (e : Err)
    (w : SWorld) : SWorld :=
  let r := heapGet rid w
  { w with
      heap := mapSet rid { r with status := .rejected, error := some e } w.heap,
      cache :=
        match cacheKey with
        | some k => mapSet k rid w.cache
        | none => w.cache }

/-- `invalidateCache(key)` of `suspense.ts`: `cache.delete(key)`. -/
def invalidateCache (k : String) (w : SWorld) : SWorld :=
  { w with cache := mapDelete k w.cache }

/-- `invalidateAllCache()` of `suspense.ts`: `cache.clear()`. -/
def invalidateAllCache (w : SWorld) : SWorld :=
  { w with cache := [] }

/-! ### The promise-map caches: `getCachedPromise` and `cachedFetch`

Both the dashboard demo (`15-suspense-demo/src/App.tsx`) and
`src/utils/promiseCache.ts` keep a module-level `Map<string, Promise>` and
populate it at creation time by invoking the caller-supplied `fetcher`. -/

/-- Behaviour of one invocation of a caller-supplied producer (`fetcher`):
either it returns a freshly started asynchronous operation, or it throws
synchronously. -/
inductive Producer where
  | returnsPromise
  | throwsSync (e : Err)
deriving DecidableEq

/-- State of a module scope holding `const cache = new Map<string, Promise>()`:
the key-to-promise map, a fresh-promise counter, and a count of producer
invocations (each invocation of a `fetcher` starts one new operation). -/
structure PCState where
  cache : List (String × Nat)
  nextP : Nat
  calls : Nat
deriving DecidableEq

def pcEmpty : PCState := ⟨[], 0, 0⟩

/-- `getCachedPromise(key, fetcher)` of `15-suspense-demo/src/App.tsx`:

    if (!cache.has(key)) { cache.set(key, fetcher()); }
    return cache.get(key)!;

The `fetcher()` argument of `cache.set` is evaluated first, so a synchronous
throw from the producer escapes before any `cache.set` executes. -/
def getCachedPromise (key : String) (p : Producer) (s : PCState) :
    Except Err Nat × PCState :=
  match mapLookup key s.cache with
  | some pid => (.ok pid, s)
  | none =>
    match p with
    | .returnsPromise =>
      (.ok s.nextP,
       { cache := mapSet key s.nextP s.cache,
         nextP := s.nextP + 1,
         calls := s.calls + 1 })
    | .throwsSync e => (.error e, { s with calls := s.calls + 1 })

/-- `cachedFetch(key, fetcher)` of `src/utils/promiseCache.ts`.  Creation is
as in `getCachedPromise`; in addition the source attaches
`promise.catch(() => cache.delete(key))` to every promise it creates — that
handler is embedded as `cfOnRejected` below, to be applied when the created
operation rejects. -/
def cachedFetch (key : String) (p : Producer) (s : PCState) :
    Except Err Nat × PCState :=
  match mapLookup key s.cache with
  | some pid => (.ok pid, s)
  | none =>
    match p with
    | .returnsPromise =>
      (.ok s.nextP,
       { cache := mapSet key s.nextP s.cache,
         nextP := s.nextP + 1,
         calls := s.calls + 1 })
    | .throwsSync e => (.error e, { s with calls := s.calls + 1 })

/-- The failure handler `promise.catch(() => cache.delete(key))` attached by
`cachedFetch` (its closure captures only the key), run when the operation
created under `key` rejects. -/
def cfOnRejected (key : String) (s : PCState) : PCState :=
  { s with cache := mapDelete key s.cache }

/-- `n` successive `getCachedPromise` reads of the same key with the same
producer, as issued by re-rendering a subtree `n` times. -/
def getCachedPromiseN : Nat → String → Producer → PCState →
    List (Except Err Nat) × PCState
  | 0, _, _, s => ([], s)
  | n + 1, k, p, s =>
    let r := getCachedPromise k p s
    let rest := getCachedPromiseN n k p r.2
    (r.1 :: rest.1, rest.2)

/-! ### The `ErrorBoundary` class component -/

/-- `ErrorBoundaryState`: `hasError: boolean` and `error: Error | null`.
`none` embeds JS `null`. -/
structure EBState where
  hasError : Bool
  error : Option Err
deriving DecidableEq

/-- The constructor's initial state `{ hasError: false, error: null }`,
which is also what `reset()` writes back via `setState`. -/
def ebInitial : EBState := ⟨false, none⟩

/-- `static getDerivedStateFromError(error)` returns
`{ hasError: true, error }`; the argument may be any thrown value,
including a falsy one (`null`), hence the `Option`. -/
def getDerivedStateFromError (e : Option Err) : EBState :=
  ⟨true, e⟩

/-- What `ErrorBoundary.render()` produces for its subtree slot. -/
inductive View where
  | fallbackView (e : Err)
  | childrenView
deriving DecidableEq

/-- `ErrorBoundary.render()`:

    if (this.state.hasError && this.state.error) { ...fallback(error)... }
    return this.props.children;

The guard tests the truthiness of `error`, so a captured null error falls
through to the children. -/
def ebRender (st : EBState) : View :=
  if st.hasError then
    match st.error with
    | some e => .fallbackView e
    | none => .childrenView
  else .childrenView

/-! ### The dashboard `App`: three sections, three boundaries, one cache -/

/-- The three dashboard sections of `15-suspense-demo/src/App.tsx`, each with
its own `ErrorBoundary`/`Suspense` pair. -/
inductive SectionId where
  | stats
  | tasks
  | activities
deriving DecidableEq

/-- The cache key each section's reads use (also the argument its
`onReset` passes to `handleSectionReset`). -/
def sectionKey : SectionId → String
  | .stats => "stats"
  | .tasks => "tasks"
  | .activities => "activities"

/-- State of the mounted `App`: one `ErrorBoundary` instance state per
section, the module-level promise cache, and the `resetKey` counter. -/
structure AppState where
  statsB : EBState
  tasksB : EBState
  activitiesB : EBState
  pc : PCState
  resetKey : Nat
deriving DecidableEq

def getBoundary : SectionId → AppState → EBState
  | .stats, a => a.statsB
  | .tasks, a => a.tasksB
  | .activities, a => a.activitiesB

def setBoundary : SectionId → EBState → AppState → AppState
  | .stats, b, a => { a with statsB := b }
  | .tasks, b, a => { a with tasksB := b }
  | .activities, b, a => { a with activitiesB := b }

/-- `handleGlobalReset`: `cache.clear(); setResetKey(k => k + 1)`. -/
def handleGlobalReset (a : AppState) : AppState :=
  { a with pc := { a.pc with cache := [] }, resetKey := a.resetKey + 1 }

/-- `handleSectionReset(section)`:
`cache.delete(section); setResetKey(k => k + 1)`. -/
def handleSectionReset (sec : String) (a : AppState) : AppState :=
  { a with
      pc := { a.pc with cache := mapDelete sec a.pc.cache },
      resetKey := a.resetKey + 1 }

/-- A section boundary's `reset` arrow function: first
`this.setState({ hasError: false, error: null })`, then
`this.props.onReset?.()` — which for section `sec` is
`() => handleSectionReset(sectionKey sec)`. -/
def resetSection (sec : SectionId) (a : AppState) : AppState :=
  handleSectionReset (sectionKey sec) (setBoundary sec ebInitial a)

/-- A failure signal captured by section `sec`'s boundary: React applies
`getDerivedStateFromError` to that instance's state; no other instance and
no cache entry is touched. -/
def captureSection (sec : SectionId) (e : Err) (a : AppState) : AppState :=
  setBoundary sec (getDerivedStateFromError (some e)) a

/-! ### Signal propagation through nested boundaries -/

/-- A control-transfer signal raised by a descendant `read`/`use` call:
either the pending operation itself (suspension) or a failure carrying the
settled error. -/
inductive Signal where
  | notReady (pid : Nat)
  | opFailed (e : Err)
deriving DecidableEq

/-- The two boundary component kinds appearing in the samples: `Suspense`
wrappers and `ErrorBoundary` class instances. -/
inductive BoundaryKind where
  | suspension
  | recovery
deriving DecidableEq

/-- Whether a boundary kind intercepts a signal kind: suspension boundaries
intercept pending operations, recovery boundaries intercept failures. -/
def matchesSignal (b : BoundaryKind) (s : Signal) : Bool :=
  match b, s with
  | .suspension, .notReady _ => true
  | .recovery, .opFailed _ => true
  | .suspension, .opFailed _ => false
  | .recovery, .notReady _ => false

/-- Modelled from the spec: the host rendering model's control-transfer
dispatch (React's internal handling of thrown promises and errors, which is
not part of this repository's sources).  A raised signal walks the ancestor
boundary chain nearest-first and is captured by the first boundary whose
kind matches the signal's kind; a non-matching boundary is passed over
rather than capturing.  Returns the index of the capturing ancestor. -/
def dispatchSignal : List BoundaryKind → Signal → Option Nat
  | [], _ => none
  | b :: rest, s =>
    if matchesSignal b s then some 0
    else (dispatchSignal rest s).map (· + 1)

/-- The ancestor boundary chain above `UserProfile` in
`11-use-api/src/App.tsx` (lines 229-233), nearest first: the
`ErrorBoundary` is the inner wrapper and the `Suspense` the outer one. -/
def useApiBoundaryChain : List BoundaryKind := [.recovery, .suspension]

/-! ### Helper lemmas -/

theorem getBoundary_setBoundary_self (sec : SectionId) (b : EBState)
    (a : AppState) : getBoundary sec (setBoundary sec b a) = b := by
  cases sec <;> rfl

theorem getBoundary_setBoundary_ne {sec sec' : SectionId} (h : sec' ≠ sec)
    (b : EBState) (a : AppState) :
    getBoundary sec' (setBoundary sec b a) = getBoundary sec' a := by
  cases sec <;> cases sec' <;> first
    | rfl
    | exact absurd rfl h

theorem getBoundary_handleSectionReset (sec : SectionId) (k : String)
    (a : AppState) :
    getBoundary sec (handleSectionReset k a) = getBoundary sec a := by
  cases sec <;> rfl

theorem dispatchSignal_matches (s : Signal) :
    ∀ (chain : List BoundaryKind) (i : Nat) (b : BoundaryKind),
      dispatchSignal chain s = some i → chain[i]? = some b →
      matchesSignal b s = true := by
  intro chain
  induction chain with
  | nil => intro i b hd; simp [dispatchSignal] at hd
  | cons hd tl ih =>
    intro i b hdisp hget
    by_cases hm : matchesSignal hd s = true
    · simp [dispatchSignal, hm] at hdisp
      subst hdisp
      simp at hget
      subst hget
      exact hm
    · simp [dispatchSignal, hm] at hdisp
      obtain ⟨j, hj, hij⟩ := hdisp
      subst hij
      simp at hget
      exact ih j b hj hget

/-! ### Concrete states used by witnesses -/

/-- A world whose cache holds a settled, rejected entry for the
`"activities"` key (the producer rejected with `"unavailable"`). -/
def wRejectedExample : SWorld :=
  ⟨[("activities", 0)], [(0, ⟨.rejected, none, some "unavailable", 3⟩)], 1⟩

/-- A world whose cache holds a settled, fulfilled entry for the
`"stats"` key carrying the value 48. -/
def wFulfilledExample : SWorld :=
  ⟨[("stats", 0)], [(0, ⟨.fulfilled, some 48, none, 4⟩)], 1⟩

/-- A promise-map cache state already holding an entry for `"stats"`. -/
def pcSettled : PCState := ⟨[("stats", 5)], 6, 1⟩

/-- A mounted dashboard with clean boundaries and two cached sections. -/
def appExample : AppState :=
  ⟨ebInitial, ebInitial, ebInitial, ⟨[("stats", 0), ("tasks", 1)], 2, 2⟩, 0⟩

/-! ### Claims -/

/-- C1: evaluation of `wrapPromise` at the failing input.  Two reads of key
`"stats"` issued before the underlying operation settles do NOT observe the
identical cache entry: the first call allocates resource 0 but stores
nothing in the cache (the only `cache.set` sits in the settlement
continuation), so the second call misses and allocates a distinct resource
1 backed by its own freshly produced promise — the producer has run once
per call.  The claimed deduplication holds for the `getCachedPromise`
promise-map but is violated by `wrapPromise`, whose own cache-hit branch
for still-pending entries is unreachable. -/
theorem c1_pending_reads_not_deduplicated :
    (wrapPromise 10 (some "stats") emptySWorld).1 = WrapResult.reader 0 ∧
    mapLookup "stats" (wrapPromise 10 (some "stats") emptySWorld).2.cache = none ∧
    (wrapPromise 11 (some "stats")
        (wrapPromise 10 (some "stats") emptySWorld).2).1 = WrapResult.reader 1 ∧
    WrapResult.reader 0 ≠ WrapResult.reader 1 :=
  ⟨rfl, rfl, rfl, by decide⟩

/-- C2 counterexample: in `cachedFetch`, after the operation created for
`"tasks"` rejects, the attached failure handler deletes the entry, so the
next `cachedFetch("tasks", p)` invokes the producer again (the invocation
count rises from 1 to 2) and returns a fresh operation instead of
re-raising the captured error. -/
theorem c2_counterexample_cachedFetch_reinvokes :
    (cachedFetch "tasks" .returnsPromise pcEmpty).1 = Except.ok 0 ∧
    (cachedFetch "tasks" .returnsPromise
        (cfOnRejected "tasks"
          (cachedFetch "tasks" .returnsPromise pcEmpty).2)).1 = Except.ok 1 ∧
    (cachedFetch "tasks" .returnsPromise
        (cfOnRejected "tasks"
          (cachedFetch "tasks" .returnsPromise pcEmpty).2)).2.calls = 2 ∧
    (cachedFetch "tasks" .returnsPromise pcEmpty).2.calls = 1 :=
  ⟨rfl, rfl, rfl, rfl⟩

/-- C2 amended: for the `suspense.ts` cache the claim holds — once the cache
holds a rejected entry for key `k`, every subsequent `wrapPromise` read of
`k` re-raises exactly the stored error and leaves the world unchanged (no
new resource, the producer's promise argument unused); the `promiseCache.ts`
variant (`cachedFetch`) instead deletes a rejected entry, so its next read
re-invokes the producer. -/
theorem c2_amended_rejected_entry_rethrows (w : SWorld) (k : String)
    (rid pid : Nat) (hc : mapLookup k w.cache = some rid)
    (hs : (heapGet rid w).status = .rejected) :
    wrapPromise pid (some k) w = (.thrownErr (heapGet rid w).error, w) := by
  simp [wrapPromise, hc, hs]

/-- C2 witness: the amended theorem at a concrete rejected entry. -/
theorem c2_amended_rejected_entry_rethrows_witness :
    wrapPromise 9 (some "activities") wRejectedExample =
      (.thrownErr (heapGet 0 wRejectedExample).error, wRejectedExample) :=
  c2_amended_rejected_entry_rethrows wRejectedExample "activities" 0 9 rfl rfl

/-- C3 counterexample: after `invalidateCache("stats")` and the creation and
settlement of a fresh entry (resource 1, value 22) for the key, the late
settlement of the original discarded operation (resource 0, value 11) is
applied, not discarded: its continuation overwrites the cache slot, which
afterwards maps `"stats"` to the stale resource 0.  The fresh resource
object itself is left intact on the heap. -/
theorem c3_counterexample_late_settlement_overwrites :
    mapLookup "stats"
      (settleFulfilled 1 (some "stats") 22
        (wrapPromise 11 (some "stats")
          (invalidateCache "stats"
            (wrapPromise 10 (some "stats") emptySWorld).2)).2).cache = some 1 ∧
    mapLookup "stats"
      (settleFulfilled 0 (some "stats") 11
        (settleFulfilled 1 (some "stats") 22
          (wrapPromise 11 (some "stats")
            (invalidateCache "stats"
              (wrapPromise 10 (some "stats") emptySWorld).2)).2)).cache = some 0 ∧
    heapGet 1
      (settleFulfilled 0 (some "stats") 11
        (settleFulfilled 1 (some "stats") 22
          (wrapPromise 11 (some "stats")
            (invalidateCache "stats"
              (wrapPromise 10 (some "stats") emptySWorld).2)).2)) =
      ⟨.fulfilled, some 22, none, 11⟩ :=
  ⟨rfl, rfl, rfl⟩

/-- C3 amended: a late settlement is never discarded — the settlement
continuation unconditionally stores its own (stale) resource in the cache
under its captured key, evicting whatever entry currently occupies that
slot; it mutates no resource object other than its own, so the
newly-created entry object survives on the heap but is no longer the cached
entry.  No entry-identity or epoch check exists. -/
theorem c3_amended_settlement_installs_unconditionally (w : SWorld)
    (rid : Nat) (k : String) (v : Val) :
    mapLookup k (settleFulfilled rid (some k) v w).cache = some rid ∧
    ∀ rid', rid' ≠ rid →
      mapLookup rid' (settleFulfilled rid (some k) v w).heap =
        mapLookup rid' w.heap := by
  constructor
  · simp [settleFulfilled, mapLookup_set_self]
  · intro rid' h
    simp [settleFulfilled, mapLookup_set_ne h]

/-- C3 witness: the amended theorem at a concrete settlement. -/
theorem c3_amended_settlement_installs_unconditionally_witness :
    mapLookup "stats" (settleFulfilled 0 (some "stats") 5 emptySWorld).cache =
      some 0 ∧
    mapLookup 1 (settleFulfilled 0 (some "stats") 5 emptySWorld).heap =
      mapLookup 1 emptySWorld.heap :=
  ⟨(c3_amended_settlement_installs_unconditionally emptySWorld 0 "stats" 5).1,
   (c3_amended_settlement_installs_unconditionally emptySWorld 0 "stats" 5).2
     1 (by decide)⟩

/-- C4 counterexample: a producer that throws synchronously makes
`getCachedPromise` propagate the throw to its caller, and the cache records
nothing at all for the key — no rejected entry is created. -/
theorem c4_counterexample_sync_throw_propagates :
    (getCachedPromise "stats" (.throwsSync "boom") pcEmpty).1 =
      Except.error "boom" ∧
    (getCachedPromise "stats" (.throwsSync "boom") pcEmpty).2.cache = [] :=
  ⟨rfl, rfl⟩

/-- C4 amended: on a cache miss with a synchronously-throwing producer,
`getOrCreate` propagates the throw unchanged and leaves the cache without
any entry for the key (only the producer-invocation count rises). -/
theorem c4_amended_sync_throw_uncached (s : PCState) (k : String) (e : Err)
    (h : mapLookup k s.cache = none) :
    getCachedPromise k (.throwsSync e) s =
      (.error e, { s with calls := s.calls + 1 }) := by
  simp [getCachedPromise, h]

/-- C4 witness: the amended theorem on the empty cache. -/
theorem c4_amended_sync_throw_uncached_witness :
    getCachedPromise "stats" (.throwsSync "boom") pcEmpty =
      (Except.error "boom", { pcEmpty with calls := pcEmpty.calls + 1 }) :=
  c4_amended_sync_throw_uncached pcEmpty "stats" "boom" rfl

/-- C5: the blocking read closure returned by `wrapPromise` is a total
three-way case split on the entry's status — fulfilled returns the stored
value, rejected throws the stored error, pending throws the backing
promise; no other outcome exists. -/
theorem c5_read_primitive_total_case_split (r : SCResource) :
    readResource r =
      match r.status with
      | .fulfilled => .returns r.value
      | .rejected => .throwsErr r.error
      | .pending => .throwsPromise r.promiseId := by
  rcases r with ⟨st, v, e, pid⟩
  cases st <;> rfl

/-- C6: after a section boundary's `reset()` (which clears the instance
state and runs `handleSectionReset` on the section's key), the cache holds
no entry for that key, the boundary state is clean
(`hasError = false, error = null`), and the very next read of the key
invokes the producer again, creating and caching a fresh operation. -/
theorem c6_reset_clears_key_and_boundary (sec : SectionId) (a : AppState) :
    mapLookup (sectionKey sec) (resetSection sec a).pc.cache = none ∧
    getBoundary sec (resetSection sec a) = ebInitial ∧
    getCachedPromise (sectionKey sec) .returnsPromise (resetSection sec a).pc =
      (.ok (resetSection sec a).pc.nextP,
       { cache := mapSet (sectionKey sec) (resetSection sec a).pc.nextP
           (resetSection sec a).pc.cache,
         nextP := (resetSection sec a).pc.nextP + 1,
         calls := (resetSection sec a).pc.calls + 1 }) := by
  have h1 : mapLookup (sectionKey sec) (resetSection sec a).pc.cache = none := by
    simp [resetSection, handleSectionReset, mapLookup_delete_self]
  refine ⟨h1, ?_, ?_⟩
  · rw [resetSection, getBoundary_handleSectionReset, getBoundary_setBoundary_self]
  · simp [getCachedPromise, h1]

/-- C7: a failure captured by one section's boundary, and that boundary's
subsequent reset handling, leave every sibling boundary's state untouched
and every cache entry outside the section's own key untouched (capture
itself touches no cache entry at all). -/
theorem c7_sibling_isolation (a : AppState) (e : Err) (sec sec' : SectionId)
    (k : String) (hb : sec' ≠ sec) (hk : k ≠ sectionKey sec) :
    getBoundary sec' (captureSection sec e a) = getBoundary sec' a ∧
    (captureSection sec e a).pc = a.pc ∧
    getBoundary sec' (resetSection sec a) = getBoundary sec' a ∧
    mapLookup k (resetSection sec a).pc.cache = mapLookup k a.pc.cache := by
  refine ⟨getBoundary_setBoundary_ne hb _ _, ?_, ?_, ?_⟩
  · cases sec <;> rfl
  · rw [resetSection, getBoundary_handleSectionReset]
    exact getBoundary_setBoundary_ne hb _ _
  · have hpc : (setBoundary sec ebInitial a).pc = a.pc := by cases sec <;> rfl
    simp [resetSection, handleSectionReset, hpc, mapLookup_delete_ne hk]

/-- C7 witness: a failure and reset in the tasks section leave the stats
boundary and the cached stats entry unchanged. -/
theorem c7_sibling_isolation_witness :
    getBoundary .stats (captureSection .tasks "boom" appExample) =
      getBoundary .stats appExample ∧
    (captureSection .tasks "boom" appExample).pc = appExample.pc ∧
    getBoundary .stats (resetSection .tasks appExample) =
      getBoundary .stats appExample ∧
    mapLookup "stats" (resetSection .tasks appExample).pc.cache =
      mapLookup "stats" appExample.pc.cache :=
  c7_sibling_isolation appExample "boom" .tasks .stats "stats"
    (by decide) (by decide)

/-- C8: whenever the host dispatch assigns a raised signal to a boundary,
that boundary's kind matches the signal's kind — a pending signal is never
captured by a recovery boundary and a failure signal never by a suspension
boundary, for every nesting, in particular the
`Suspense`-outside-`ErrorBoundary` composition of the 11-use-api App. -/
theorem c8_signal_kind_matching (chain : List BoundaryKind) (s : Signal)
    (i : Nat) (b : BoundaryKind)
    (hd : dispatchSignal chain s = some i) (hb : chain[i]? = some b) :
    ((∃ pid, s = .notReady pid) → b = .suspension) ∧
    ((∃ e, s = .opFailed e) → b = .recovery) := by
  have hm := dispatchSignal_matches s chain i b hd hb
  constructor
  · rintro ⟨pid, rfl⟩
    cases b
    · rfl
    · simp [matchesSignal] at hm
  · rintro ⟨e, rfl⟩
    cases b
    · simp [matchesSignal] at hm
    · rfl

/-- C8 witness: in the 11-use-api composition (ErrorBoundary inner,
Suspense outer) a pending signal passes over the recovery boundary and is
captured by the suspension boundary at index 1. -/
theorem c8_signal_kind_matching_witness :
    dispatchSignal useApiBoundaryChain (.notReady 7) = some 1 ∧
    useApiBoundaryChain[1]? = some BoundaryKind.suspension ∧
    (((∃ pid, Signal.notReady 7 = Signal.notReady pid) →
        BoundaryKind.suspension = BoundaryKind.suspension) ∧
     ((∃ e, Signal.notReady 7 = Signal.opFailed e) →
        BoundaryKind.suspension = BoundaryKind.recovery)) :=
  ⟨rfl, rfl,
   c8_signal_kind_matching useApiBoundaryChain (.notReady 7) 1 .suspension
     rfl rfl⟩

/-- C9: once the cache holds an entry for a key, re-rendering any number of
times returns the identical cached operation every time and never changes
the cache state — in particular the producer is never invoked again; and
for a fulfilled `wrapPromise` entry, every read returns the reader over the
same cached resource, whose forcing yields exactly the stored value. -/
theorem c9_settled_reads_idempotent (n : Nat) (k : String) (p : Producer)
    (s : PCState) (pid : Nat) (h : mapLookup k s.cache = some pid)
    (w : SWorld) (k' : String) (rid pid' : Nat)
    (hc : mapLookup k' w.cache = some rid)
    (hf : (heapGet rid w).status = .fulfilled) :
    getCachedPromiseN n k p s = (List.replicate n (Except.ok pid), s) ∧
    wrapPromise pid' (some k') w = (.reader rid, w) ∧
    readResource (heapGet rid w) = .returns (heapGet rid w).value := by
  refine ⟨?_, ?_, ?_⟩
  · induction n with
    | zero => simp [getCachedPromiseN]
    | succ m ih => simp [getCachedPromiseN, getCachedPromise, h, ih,
        List.replicate_succ]
  · simp [wrapPromise, hc, hf]
  · simp [readResource, hf]

/-- C9 witness: three re-renders against a cached stats entry, and a read of
a fulfilled suspense-cache entry. -/
theorem c9_settled_reads_idempotent_witness :
    getCachedPromiseN 3 "stats" .returnsPromise pcSettled =
      (List.replicate 3 (Except.ok 5), pcSettled) ∧
    wrapPromise 9 (some "stats") wFulfilledExample =
      (.reader 0, wFulfilledExample) ∧
    readResource (heapGet 0 wFulfilledExample) =
      .returns (heapGet 0 wFulfilledExample).value :=
  c9_settled_reads_idempotent 3 "stats" .returnsPromise pcSettled 5 rfl
    wFulfilledExample "stats" 0 9 rfl rfl

/-- C10: capturing a falsy (null) error yields state
`hasError = true, error = null`, on which `render` returns the children;
in general the fallback view is produced exactly when the failed flag is
set and the captured error is non-null. -/
theorem c10_falsy_error_renders_children :
    getDerivedStateFromError none = { hasError := true, error := none } ∧
    ebRender (getDerivedStateFromError none) = .childrenView ∧
    ∀ st : EBState,
      ebRender st =
        match st.hasError, st.error with
        | true, some e => .fallbackView e
        | true, none => .childrenView
        | false, _ => .childrenView := by
  refine ⟨rfl, rfl, ?_⟩
  rintro ⟨h, e⟩
  cases h <;> cases e <;> rfl

end SuspenseVerif
